import Mathlib

/-!
Verification development for the computer-agent repository.

We shallowly embed the core of the agent: the OpenAI provider's action
decoder (`src/openai_provider.py`), the Anthropic client's text-only
response post-processing (`src/anthropic.py`), the coordinate mapping and
the executor state machine (`src/computer.py`), the provider registry
(`src/ai_providers.py`) and the orchestrator run loop (`src/store.py`).

Python JSON values are modelled by `JValue` (numbers as integers, which is
the shape the model emits for coordinates); Python exceptions that can
escape a function are modelled by `Except PyExc`; environment lookups and
nondeterministic external calls (network, OS input) are modelled as
explicit inputs.
-/

/-- A parsed JSON value as produced by Python's json.loads. Numbers are
modelled as integers; object field lists are assumed key-distinct apart
from the lookup convention below. -/
inductive JValue where
  | jnull : JValue
  | jbool (b : Bool) : JValue
  | jnum (n : Int) : JValue
  | jstr (s : String) : JValue
  | jarr (xs : List JValue) : JValue
  | jobj (kvs : List (String × JValue)) : JValue

/-- Python exception kinds that can escape the provider code paths that the
source does not catch (its try blocks catch only json.JSONDecodeError). -/
inductive PyExc where
  | attributeError : PyExc
  | typeError : PyExc
  | keyError : PyExc
  | indexError : PyExc
deriving DecidableEq

/-- Message text used when a Python exception reaches the orchestrator's
outer handler and is stored as str(e); exact interpolated Python messages
are abstracted to the exception class name. -/
def PyExc.msg : PyExc → String
  | .attributeError => "AttributeError"
  | .typeError => "TypeError"
  | .keyError => "KeyError"
  | .indexError => "IndexError"

/-- Lookup in a parsed JSON object; the last binding wins, matching the
overwrite semantics of building a Python dict from JSON key/value pairs. -/
def jlookup (kvs : List (String × JValue)) (k : String) : Option JValue :=
  (kvs.reverse.find? (fun p => p.1 == k)).map (fun p => p.2)

/-- Number of distinct keys: Python len() of the dict built from kvs. -/
def distinctKeyCount (kvs : List (String × JValue)) : Nat :=
  ((kvs.map Prod.fst).foldl (fun acc k => if acc.contains k then acc else acc ++ [k]) []).length

/-- Python len() applied to a JSON value: defined on str, list and dict,
raises TypeError otherwise. -/
def pyLen : JValue → Except PyExc Nat
  | .jstr s => .ok s.length
  | .jarr xs => .ok xs.length
  | .jobj kvs => .ok (distinctKeyCount kvs)
  | _ => .error .typeError

/-- Python v[i] for an integer index i: list indexing, string indexing
(yielding a 1-character string), KeyError on dict (JSON keys are strings),
TypeError otherwise. -/
def pyIndex (v : JValue) (i : Nat) : Except PyExc JValue :=
  match v with
  | .jarr xs =>
    match xs.get? i with
    | some a => .ok a
    | none => .error .indexError
  | .jstr s =>
    match s.data.get? i with
    | some c => .ok (.jstr c.toString)
    | none => .error .indexError
  | .jobj _ => .error .keyError
  | _ => .error .typeError

/-- Python repr() of a JSON value (string escaping abstracted). -/
def pyRepr : JValue → String
  | .jnull => "None"
  | .jbool b => if b then "True" else "False"
  | .jnum n => toString n
  | .jstr s => "'" ++ s ++ "'"
  | .jarr xs => "[" ++ String.intercalate ", " (xs.attach.map (fun x => pyRepr x.1)) ++ "]"
  | .jobj kvs => "\x7b" ++ String.intercalate ", " (kvs.attach.map (fun p => "'" ++ p.1.1 ++ "': " ++ pyRepr p.1.2)) ++ "\x7d"
decreasing_by
  · have := List.sizeOf_lt_of_mem x.2
    simp_all
    omega
  · rcases p with ⟨⟨k, v⟩, hmem⟩
    have := List.sizeOf_lt_of_mem hmem
    simp_all
    omega

/-- Python str() of a JSON value as interpolated into an f-string. -/
def pyStr : JValue → String
  | .jstr s => s
  | v => pyRepr v

/-- Python str() of a dict .get result (None prints as "None"). -/
def pyStrOpt : Option JValue → String
  | none => "None"
  | some v => pyStr v

/-- The canonical action dictionary produced by extract_action: a tagged
variant over the dicts of the form given in openai_provider.extract_action
(type plus optional x/y/text payload fields, which hold the raw JSON
values taken from the tool-call arguments). -/
inductive AgentAction where
  | error (message : String) : AgentAction
  | finish : AgentAction
  | mouse_move (x y : JValue) : AgentAction
  | left_click : AgentAction
  | right_click : AgentAction
  | middle_click : AgentAction
  | double_click : AgentAction
  | left_click_drag (x y : JValue) : AgentAction
  | type_text (text : JValue) : AgentAction
  | key (text : JValue) : AgentAction
  | screenshot : AgentAction
  | cursor_position : AgentAction

/-- True for the actions the orchestrator hands to the executor (anything
other than the error and finish variants, which terminate the loop). -/
def AgentAction.isExecutable : AgentAction → Bool
  | .error _ => false
  | .finish => false
  | _ => true

/-- True exactly for the two perform_action branches that assign
last_click_position in computer.py. -/
def AgentAction.setsClick : AgentAction → Bool
  | .left_click => true
  | .double_click => true
  | _ => false

/-- One element of an OpenAI response message's tool_calls list. The field
name stands for tool_call.function.name, arguments for the raw
tool_call.function.arguments string, and argumentsJson for the result of
json.loads on it (none when loads raises json.JSONDecodeError). -/
structure ToolCall where
  id : String
  name : String
  arguments : String
  argumentsJson : Option JValue

/-- An OpenAI chat completion message as inspected by the provider:
optional assistant text plus the tool_calls list (Python None or an empty
list are both modelled as []). -/
structure ChatMessage where
  content : Option String
  tool_calls : List ToolCall

/-- Embeds OpenAIProvider.extract_action (openai_provider.py lines
413-467). The for loop over tool_calls returns on its first iteration, so
only the head tool call is examined. The surrounding try catches only
json.JSONDecodeError, so attribute/type/key errors raised on unexpected
argument shapes escape as exceptions (the PyExc error side). -/
def OpenAIProvider.extract_action (response : Option ChatMessage) : Except PyExc AgentAction :=
  match response with
  | none => .ok (.error "Empty response from OpenAI")
  | some m =>
    match m.tool_calls with
    | [] => .ok (.error "No tool use found in message")
    | tc :: _ =>
      if tc.name == "finish_run" then .ok .finish
      else if tc.name != "computer" then .ok (.error ("Unexpected tool: " ++ tc.name))
      else
        match tc.argumentsJson with
        | none => .ok (.error "Failed to parse tool arguments")
        | some (.jobj kvs) =>
          match jlookup kvs "action" with
          | some (.jstr a) =>
            if a == "mouse_move" || a == "left_click_drag" then
              match jlookup kvs "coordinate" with
              | none => .ok (.error "Invalid coordinate for mouse action")
              | some c =>
                match pyLen c with
                | .error e => .error e
                | .ok n =>
                  if n != 2 then .ok (.error "Invalid coordinate for mouse action")
                  else
                    match pyIndex c 0 with
                    | .error e => .error e
                    | .ok x =>
                      match pyIndex c 1 with
                      | .error e => .error e
                      | .ok y =>
                        if a == "mouse_move" then .ok (.mouse_move x y)
                        else .ok (.left_click_drag x y)
            else if a == "left_click" then .ok .left_click
            else if a == "right_click" then .ok .right_click
            else if a == "middle_click" then .ok .middle_click
            else if a == "double_click" then .ok .double_click
            else if a == "screenshot" then .ok .screenshot
            else if a == "cursor_position" then .ok .cursor_position
            else if a == "type" || a == "key" then
              match jlookup kvs "text" with
              | none => .ok (.error "Missing text for keyboard action")
              | some t => if a == "type" then .ok (.type_text t) else .ok (.key t)
            else .ok (.error ("Unsupported action: " ++ a))
          | other => .ok (.error ("Unsupported action: " ++ pyStrOpt other))
        | some _ => .error .attributeError

/-- JSON serialization of a JSON value, following json.dumps with default
separators (string escaping abstracted). -/
def jdump : JValue → String
  | .jnull => "null"
  | .jbool b => if b then "true" else "false"
  | .jnum n => toString n
  | .jstr s => "\"" ++ s ++ "\""
  | .jarr xs => "[" ++ String.intercalate ", " (xs.attach.map (fun x => jdump x.1)) ++ "]"
  | .jobj kvs => "\x7b" ++ String.intercalate ", " (kvs.attach.map (fun p => "\"" ++ p.1.1 ++ "\": " ++ jdump p.1.2)) ++ "\x7d"
decreasing_by
  · have := List.sizeOf_lt_of_mem x.2
    simp_all
    omega
  · rcases p with ⟨⟨k, v⟩, hmem⟩
    have := List.sizeOf_lt_of_mem hmem
    simp_all
    omega

/-- JSON serialization of a dict value that may be Python None. -/
def jdumpOpt : Option JValue → String
  | none => "null"
  | some v => jdump v

/-- The json.dumps of the display dictionary built in
display_assistant_message for a computer tool call, with the fixed
insertion-ordered keys type, x, y, text. -/
def dumpsActionDict (t x y txt : Option JValue) : String :=
  "\x7b\"type\": " ++ jdumpOpt t ++ ", \"x\": " ++ jdumpOpt x ++ ", \"y\": " ++ jdumpOpt y ++
  ", \"text\": " ++ jdumpOpt txt ++ "\x7d"

/-- Embeds the per-tool-call body of OpenAIProvider.display_assistant_message
(openai_provider.py lines 481-502): the emitted string for one tool call,
or the Python exception it raises. Only json.JSONDecodeError is caught (the
invalid JSON branch); index/type/key/attribute errors raised while building
the display dict escape. -/
def OpenAIProvider.display_tool_call (tc : ToolCall) : Except PyExc String :=
  match tc.argumentsJson with
  | none => .ok ("Assistant action: " ++ tc.name ++ " - (invalid JSON)")
  | some args =>
    if tc.name == "computer" then
      match args with
      | .jobj kvs =>
        let t := jlookup kvs "action"
        match (match jlookup kvs "coordinate" with
               | none => Except.ok (none, none)
               | some c =>
                 match pyIndex c 0 with
                 | .error e => Except.error e
                 | .ok x =>
                   match pyIndex c 1 with
                   | .error e => Except.error e
                   | .ok y => Except.ok (some x, some y)) with
        | .error e => .error e
        | .ok (x, y) => .ok ("Performed action: " ++ dumpsActionDict t x y (jlookup kvs "text"))
      | _ => .error .attributeError
    else if tc.name == "finish_run" then .ok "Assistant: Task completed! "
    else .ok ("Assistant action: " ++ tc.name ++ " - " ++ tc.arguments)

/-- Result of display_assistant_message: the strings emitted through
update_callback (in order, up to the point any exception was raised), the
final value of self.last_tool_use_id, and the escaped exception if any. -/
structure DisplayResult where
  emitted : List String
  last_tool_use_id : Option String
  exc : Option PyExc

/-- Folds display_tool_call over the tool_calls list, threading
last_tool_use_id (assigned for each tool call before its try block, so it
is updated even when the body then raises). -/
def OpenAIProvider.display_tool_calls : List ToolCall → Option String → DisplayResult
  | [], lastId => ⟨[], lastId, none⟩
  | tc :: rest, _ =>
    match OpenAIProvider.display_tool_call tc with
    | .error e => ⟨[], some tc.id, some e⟩
    | .ok s =>
      let r := OpenAIProvider.display_tool_calls rest (some tc.id)
      ⟨s :: r.emitted, r.last_tool_use_id, r.exc⟩

/-- Embeds OpenAIProvider.display_assistant_message (openai_provider.py
lines 469-502): emits the assistant text when content is truthy (neither
None nor the empty string), then processes each tool call. -/
def OpenAIProvider.display_assistant_message (m : ChatMessage) (lastId : Option String) : DisplayResult :=
  let head : List String :=
    match m.content with
    | some s => if s == "" then [] else ["Assistant: " ++ s]
    | none => []
  let r := OpenAIProvider.display_tool_calls m.tool_calls lastId
  ⟨head ++ r.emitted, r.last_tool_use_id, r.exc⟩

/-- A content block of an Anthropic beta message (anthropic.py): assistant
text or a tool-use block with its id, tool name and JSON input. -/
inductive BetaBlock where
  | text (t : String) : BetaBlock
  | tool_use (id : String) (name : String) (input : JValue) : BetaBlock

/-- True for tool-use blocks (isinstance(content, BetaToolUseBlock)). -/
def BetaBlock.isToolUse : BetaBlock → Bool
  | .tool_use _ _ _ => true
  | _ => false

/-- An Anthropic beta message: role plus content blocks. -/
structure BetaMessage where
  role : String
  content : List BetaBlock

/-- The text of the first BetaTextBlock of the response, or "" if none —
next((content.text for ... if isinstance(..., BetaTextBlock)), ""). -/
def BetaMessage.firstText (m : BetaMessage) : String :=
  match m.content.find? (fun b => match b with | .text _ => true | _ => false) with
  | some (.text t) => t
  | _ => ""

/-- Embeds the text-only post-processing step of
AnthropicClient.get_next_action (anthropic.py lines 71-87): if the API
response contains no tool-use block, append a synthetic finish_run
tool-use block whose input carries success=false and an error string
embedding the model's own text. The network call itself is abstracted: this
function maps the raw API response to the returned response. -/
def AnthropicClient.synthesize_finish (response : BetaMessage) : BetaMessage :=
  if response.content.any BetaBlock.isToolUse then response
  else
    { response with
      content := response.content ++
        [BetaBlock.tool_use "synthetic_finish" "finish_run"
          (JValue.jobj
            [("success", JValue.jbool false),
             ("error", JValue.jstr ("Claude needs more information: " ++ response.firstText))])] }

/-- Embeds ComputerControl.map_from_ai_space (computer.py lines 88-90),
parameterized by the actual screen resolution. -/
def map_from_ai_space (screen_width screen_height : ℚ) (x y : ℚ) : ℚ × ℚ :=
  (x * screen_width / 1280, y * screen_height / 800)

/-- Embeds ComputerControl.map_to_ai_space (computer.py lines 92-94). -/
def map_to_ai_space (screen_width screen_height : ℚ) (x y : ℚ) : ℚ × ℚ :=
  (x * 1280 / screen_width, y * 800 / screen_height)

/-- The state of ComputerControl together with the OS cursor it drives:
screen resolution (pyautogui.size()), the current cursor position
(pyautogui.position(); pixel rounding abstracted to rationals) and the
last_click_position field. -/
structure CCState where
  screen_width : ℚ
  screen_height : ℚ
  cursor : ℚ × ℚ
  last_click_position : Option (ℚ × ℚ)

/-- Embeds ComputerControl.__init__ (computer.py lines 8-11):
last_click_position starts as None. -/
def ComputerControl.init (w h : ℚ) (cursor : ℚ × ℚ) : CCState :=
  ⟨w, h, cursor, none⟩

/-- What perform_action hands back: a fresh screenshot (contents abstracted)
or, for cursor_position, the cursor mapped to AI space. -/
inductive PerformResult where
  | screenshot : PerformResult
  | coords (p : ℚ × ℚ) : PerformResult

/-- The wrapped message raised by perform_action's except branch:
Action failed: action_type - str(e) (specific cause text abstracted). -/
def actionFailed (actionType cause : String) : String :=
  "Action failed: " ++ actionType ++ " - " ++ cause

/-- Coordinate payloads must be numbers for pyautogui arithmetic; any other
JSON value raises inside perform_action and is wrapped by its except. -/
def jnumQ : JValue → Option ℚ
  | .jnum n => some (n : ℚ)
  | _ => none

/-- Embeds ComputerControl.perform_action (computer.py lines 13-79) as a
state transformer over CCState. pyautogui semantics modelled: click()
clicks at the current cursor without moving it, position() reads the
cursor, moveTo/dragTo move the cursor, click(p) moves the cursor to p and
clicks. Screenshot contents and sleeps are abstracted. Any exception is
wrapped as the error string "Action failed: ...". -/
def ComputerControl.perform_action (s : CCState) (a : AgentAction) : Except String (CCState × PerformResult) :=
  match a with
  | .mouse_move x y =>
    match jnumQ x, jnumQ y with
    | some qx, some qy =>
      .ok ({ s with cursor := map_from_ai_space s.screen_width s.screen_height qx qy }, .screenshot)
    | _, _ => .error (actionFailed "mouse_move" "TypeError")
  | .left_click =>
    .ok ({ s with last_click_position := some s.cursor }, .screenshot)
  | .right_click => .ok (s, .screenshot)
  | .middle_click => .ok (s, .screenshot)
  | .double_click =>
    .ok ({ s with last_click_position := some s.cursor }, .screenshot)
  | .left_click_drag x y =>
    match jnumQ x, jnumQ y with
    | some qx, some qy =>
      .ok ({ s with cursor := map_from_ai_space s.screen_width s.screen_height qx qy }, .screenshot)
    | _, _ => .error (actionFailed "left_click_drag" "TypeError")
  | .type_text t =>
    match t with
    | .jstr _ =>
      match s.last_click_position with
      | some p =>
        if s.cursor = p then .ok (s, .screenshot)
        else .ok ({ s with cursor := p }, .screenshot)
      | none => .ok (s, .screenshot)
    | _ => .error (actionFailed "type" "TypeError")
  | .key t =>
    match t with
    | .jstr _ => .ok (s, .screenshot)
    | _ => .error (actionFailed "key" "TypeError")
  | .screenshot => .ok (s, .screenshot)
  | .cursor_position =>
    .ok (s, .coords (map_to_ai_space s.screen_width s.screen_height s.cursor.1 s.cursor.2))
  | .error _ => .error (actionFailed "error" "Unsupported action: error")
  | .finish => .error (actionFailed "finish" "Unsupported action: finish")

/-- The external Python environment the provider registry depends on:
environment variables (os.getenv), whether the openai package imports, and
whether constructing the OpenAI client and listing models succeeds. -/
structure PyEnv where
  getenv : String → Option String
  openai_installed : Bool
  openai_client_ok : Bool

/-- Python truthiness of an optional string (None and "" are falsy). -/
def strTruthy : Option String → Bool
  | none => false
  | some s => s != ""

/-- Python a or b on optional strings (left value unless falsy). -/
def pyOrStr (a b : Option String) : Option String :=
  if strTruthy a then a else b

/-- The model catalog entries of OpenAIProvider.AVAILABLE_MODELS. -/
structure ModelInfo where
  id : String
  name : String
  provider : String
  features : List String

/-- Embeds OpenAIProvider.AVAILABLE_MODELS (openai_provider.py lines 24-43). -/
def OpenAIProvider.AVAILABLE_MODELS : List ModelInfo :=
  [⟨"gpt-4o", "GPT-4o", "openai", ["computer_use"]⟩,
   ⟨"gpt-4-turbo", "GPT-4 Turbo", "openai", []⟩,
   ⟨"gpt-4", "GPT-4", "openai", []⟩]

/-- Embeds OpenAIProvider.default_model (openai_provider.py lines 513-526):
first model flagged computer_use, else the first model, else "gpt-4o". -/
def OpenAIProvider.default_model : String :=
  match OpenAIProvider.AVAILABLE_MODELS.find? (fun m => m.features.contains "computer_use") with
  | some m => m.id
  | none =>
    match OpenAIProvider.AVAILABLE_MODELS with
    | m :: _ => m.id
    | [] => "gpt-4o"

/-- The constructed OpenAIProvider's fields relevant here. -/
structure OpenAIProviderState where
  api_key : Option String
  model_id : String

/-- Embeds OpenAIProvider.__init__ (openai_provider.py lines 45-57):
api_key = argument or OPENAI_API_KEY from the environment, model_id =
argument or the default model. -/
def OpenAIProvider.construct (env : PyEnv) (api_key model_id : Option String) : OpenAIProviderState :=
  ⟨pyOrStr api_key (env.getenv "OPENAI_API_KEY"),
   (pyOrStr model_id (some OpenAIProvider.default_model)).getD OpenAIProvider.default_model⟩

/-- Embeds OpenAIProvider.initialize (openai_provider.py lines 59-96) as
its boolean outcome: false when the openai package is missing, the api key
is falsy, or creating the client / listing models fails; true otherwise. -/
def OpenAIProvider.initOk (st : OpenAIProviderState) (env : PyEnv) : Bool :=
  env.openai_installed && strTruthy st.api_key && env.openai_client_ok

/-- A provider instance returned by the registry. The repository contains
no anthropic_provider module, so the only constructible provider is the
OpenAI one. -/
inductive Provider where
  | openai (st : OpenAIProviderState) : Provider

/-- The repository has no src/anthropic_provider.py, so the statement
from .anthropic_provider import AnthropicProvider in create_provider
always raises ImportError. -/
def anthropic_provider_module_exists : Bool := false

/-- Embeds AIProviderManager.create_provider (ai_providers.py lines
104-172). The anthropic branch's import raises ImportError (the module is
missing from the repository), which the branch catches, returning None;
the openai branch returns None when the package is missing or initialize
returns false; unknown names return None. -/
def AIProviderManager.create_provider (env : PyEnv) (provider_name : String) (api_key : Option String) : Option Provider :=
  if provider_name == "anthropic" then
    if anthropic_provider_module_exists then none else none
  else if provider_name == "openai" then
    if !env.openai_installed then none
    else
      let st := OpenAIProvider.construct env api_key none
      if OpenAIProvider.initOk st env then some (Provider.openai st) else none
  else none

/-- Python str.upper() on the provider name. -/
def pyUpper (s : String) : String := ⟨s.data.map Char.toUpper⟩

/-- Embeds Store._create_provider (store.py lines 29-73): look up
<PROVIDER>_API_KEY; when it is unset or empty, return None and store an
error message naming that variable; when the manager fails, return None
and store a dependency message; otherwise return the provider with no
error stored. -/
def Store._create_provider (env : PyEnv) (provider_name : String) : Option Provider × Option String :=
  let api_key_env_var := pyUpper provider_name ++ "_API_KEY"
  let api_key := env.getenv api_key_env_var
  if !strTruthy api_key then
    (none, some ("No API key found for " ++ provider_name ++ " provider. Please set " ++
      api_key_env_var ++ " in your .env file."))
  else
    match AIProviderManager.create_provider env provider_name api_key with
    | none =>
      (none, some ("Failed to create " ++ provider_name ++ " provider. Check that you have the required dependencies installed."))
    | some p => (some p, none)

/-- One entry of run_history. user_text is the seeding
role user / string content entry; assistant_msg is the raw provider
response appended each turn; tool_result is the screenshot entry; and
user_text_block is a role user entry whose content is a single text block
(used both for executor failure reports and the stop marker). -/
inductive HistoryEntry where
  | user_text (text : String) : HistoryEntry
  | assistant_msg (m : ChatMessage) : HistoryEntry
  | tool_result (tool_use_id : Option String) (screenshot : String) : HistoryEntry
  | user_text_block (text : String) : HistoryEntry

/-- The mutable state of Store (store.py lines 13-27) that run_agent,
stop_run and the provider wiring touch. last_tool_use_id models the
self.ai_provider.last_tool_use_id field of the active provider. -/
structure Store where
  instructions : String
  running : Bool
  error : Option String
  run_history : List HistoryEntry
  current_provider_name : String
  ai_provider : Option Provider
  last_tool_use_id : Option String

/-- Embeds Store.__init__ (store.py lines 13-27): the provider selector
defaults to "anthropic" when DEFAULT_AI_PROVIDER is unset, and the
provider (or None) plus any stored error comes from _create_provider. -/
def Store.construct (env : PyEnv) : Store :=
  let name := (env.getenv "DEFAULT_AI_PROVIDER").getD "anthropic"
  let pe := Store._create_provider env name
  ⟨"", false, pe.2, [], name, pe.1, none⟩

/-- The nondeterministic outcomes of one loop iteration's external calls:
the provider's get_next_action (a message or a raised exception caught at
the loop boundary) and the executor's perform_action (a screenshot-or-None
or a raised exception). -/
structure TurnInput where
  response : Except String ChatMessage
  execResult : Except String (Option String)

/-- The marker entry appended by stop_run. -/
def stopMarker : HistoryEntry := .user_text_block "Agent run stopped by user."

/-- Embeds Store.stop_run (store.py lines 250-260): set running to False
and append exactly one stop marker to run_history (cleanup is a no-op). -/
def Store.stop_run (st : Store) : Store :=
  { st with running := false, run_history := st.run_history ++ [stopMarker] }

/-- Embeds one iteration of the while body of Store.run_agent (store.py
lines 189-248), wired to the OpenAI provider (the only provider adapter
present in the repository). Returns the new store and the strings passed
to update_callback, in order. -/
def Store.runStep (st : Store) (inp : TurnInput) : Store × List String :=
  match inp.response with
  | .error e =>
    ({ st with running := false, error := some e }, ["Error: " ++ e])
  | .ok m =>
    let st1 := { st with run_history := st.run_history ++ [HistoryEntry.assistant_msg m] }
    let d := OpenAIProvider.display_assistant_message m st1.last_tool_use_id
    let st2 := { st1 with last_tool_use_id := d.last_tool_use_id }
    match d.exc with
    | some e =>
      ({ st2 with running := false, error := some e.msg }, d.emitted ++ ["Error: " ++ e.msg])
    | none =>
      match OpenAIProvider.extract_action (some m) with
      | .error e =>
        ({ st2 with running := false, error := some e.msg }, d.emitted ++ ["Error: " ++ e.msg])
      | .ok (.error msg) =>
        ({ st2 with running := false, error := some msg }, d.emitted ++ ["Error: " ++ msg])
      | .ok .finish =>
        ({ st2 with running := false }, d.emitted ++ ["Task completed successfully."])
      | .ok _ =>
        match inp.execResult with
        | .ok (some shot) =>
          ({ st2 with run_history := st2.run_history ++ [HistoryEntry.tool_result st2.last_tool_use_id shot] },
           d.emitted)
        | .ok none => (st2, d.emitted)
        | .error e =>
          ({ st2 with run_history := st2.run_history ++ [HistoryEntry.user_text_block ("Action failed: " ++ e)] },
           d.emitted ++ ["Error: Action failed: " ++ e])

/-- An external event at a turn boundary: one loop iteration's external
outcomes, or a stop_run call from the UI thread (cancellation is
cooperative, so a stop is modelled at the boundary between iterations). -/
inductive Event where
  | turn (inp : TurnInput) : Event
  | stop : Event

/-- The observable outcome of a run: the final store, the callback strings
in order, and how many get_next_action calls the loop issued. -/
structure RunOutput where
  store : Store
  emitted : List String
  api_calls : Nat

/-- Drives the while loop of run_agent over a schedule of events. A turn
is processed only while running is true (the flag is read at the top of
each iteration); a stop event applies stop_run. -/
def Store.runEvents : Store → List Event → RunOutput
  | st, [] => ⟨st, [], 0⟩
  | st, Event.stop :: rest => Store.runEvents (Store.stop_run st) rest
  | st, Event.turn inp :: rest =>
    if st.running then
      let p := Store.runStep st inp
      let r := Store.runEvents p.1 rest
      ⟨r.store, p.2 ++ r.emitted, r.api_calls + 1⟩
    else Store.runEvents st rest

/-- Embeds Store.run_agent (store.py lines 178-248): fail fast when no
provider is initialized; otherwise set running, clear the error, seed
run_history with the user's instructions and run the loop. -/
def Store.run_agent (st : Store) (events : List Event) : RunOutput :=
  match st.ai_provider with
  | none => ⟨st, ["Error: AI provider not initialized"], 0⟩
  | some _ =>
    Store.runEvents
      { st with
          running := true
          error := none
          run_history := [HistoryEntry.user_text st.instructions] }
      events

/-- Naive substring test used to state that a reported message does or does
not mention a given fragment. -/
def strContains (s pat : String) : Bool :=
  (List.range (s.length + 1)).any (fun i => pat.data.isPrefixOf (s.data.drop i))

/-- Argument shapes on which extract_action's uncaught Python exceptions
cannot fire for a computer tool call: the arguments either fail to parse
(caught as JSONDecodeError) or parse to a JSON object whose coordinate
value, when the action is a mouse action, is absent or an array. -/
def ToolCall.argsSafe (tc : ToolCall) : Bool :=
  match tc.argumentsJson with
  | none => true
  | some (JValue.jobj kvs) =>
    match jlookup kvs "action" with
    | some (JValue.jstr a) =>
      if a == "mouse_move" || a == "left_click_drag" then
        match jlookup kvs "coordinate" with
        | none => true
        | some (JValue.jarr _) => true
        | some _ => false
      else true
    | _ => true
  | some _ => false

/-- The head tool call's arguments are safe whenever they are inspected:
extract_action reads arguments only for the first tool call and only when
its name is "computer". -/
def ChatMessage.argsSafeHead (m : ChatMessage) : Bool :=
  match m.tool_calls with
  | [] => true
  | tc :: _ =>
    if tc.name == "finish_run" then true
    else if tc.name != "computer" then true
    else tc.argsSafe

/-- Totality observation on extract_action: true when it returns an action
without raising, with a non-empty message if that action is the error
variant. -/
def extractOk (m : ChatMessage) : Bool :=
  match OpenAIProvider.extract_action (some m) with
  | .ok (.error msg) => msg != ""
  | .ok _ => true
  | .error _ => false

/-- A schedule containing only turn events (no stop_run call). -/
def allTurns (evs : List Event) : Bool :=
  evs.all (fun e => match e with | .turn _ => true | .stop => false)

/-- C4: for every (x, y) in [0,1280]x[0,800] and every positive screen
resolution, mapping from AI space to screen space and back is the
identity, exactly, in rational arithmetic. -/
theorem map_roundtrip_exact (w h x y : ℚ) (hw : 0 < w) (hh : 0 < h)
    (hx0 : 0 ≤ x) (hx1 : x ≤ 1280) (hy0 : 0 ≤ y) (hy1 : y ≤ 800) :
    map_to_ai_space w h (map_from_ai_space w h x y).1 (map_from_ai_space w h x y).2 = (x, y) := by
  unfold map_from_ai_space map_to_ai_space
  have hw0 : w ≠ 0 := ne_of_gt hw
  have hh0 : h ≠ 0 := ne_of_gt hh
  simp only [Prod.mk.injEq]
  constructor
  · field_simp
  · field_simp

/-- Witness for map_roundtrip_exact at screen 1920x1080 and point (100, 50). -/
theorem map_roundtrip_exact_witness :
    map_to_ai_space 1920 1080 (map_from_ai_space 1920 1080 100 50).1 (map_from_ai_space 1920 1080 100 50).2 = (100, 50) :=
  map_roundtrip_exact 1920 1080 100 50 (by norm_num) (by norm_num) (by norm_num)
    (by norm_num) (by norm_num) (by norm_num)

/-- C1 counterexample: a text-only OpenAI response (no tool calls) decodes
to a plain Error action, not to a Finish action, contradicting the claim
that every adapter yields Finish for a tool-free response. -/
theorem openai_text_only_yields_error_action :
    OpenAIProvider.extract_action (some ⟨some "hello", []⟩) =
      Except.ok (AgentAction.error "No tool use found in message") := rfl

/-- C1 amended: only the Anthropic client synthesizes a finish_run tool
use with success=false and an error embedding the model's own free text
when a response carries no tool use; the OpenAI provider instead decodes
any response without tool calls to the Error action with message "No tool
use found in message". -/
theorem text_only_policy_per_adapter :
    (∀ r : BetaMessage, r.content.any BetaBlock.isToolUse = false →
      (AnthropicClient.synthesize_finish r).content =
        r.content ++ [BetaBlock.tool_use "synthetic_finish" "finish_run"
          (JValue.jobj
            [("success", JValue.jbool false),
             ("error", JValue.jstr ("Claude needs more information: " ++ r.firstText))])]) ∧
    (∀ c : Option String,
      OpenAIProvider.extract_action (some ⟨c, []⟩) =
        Except.ok (AgentAction.error "No tool use found in message")) := by
  constructor
  · intro r hr
    unfold AnthropicClient.synthesize_finish
    rw [hr]
    simp
  · intro c
    rfl

/-- Witness for text_only_policy_per_adapter on a concrete text-only
response for each adapter. -/
theorem text_only_policy_per_adapter_witness :
    (AnthropicClient.synthesize_finish ⟨"assistant", [BetaBlock.text "hi"]⟩).content =
      [BetaBlock.text "hi",
       BetaBlock.tool_use "synthetic_finish" "finish_run"
         (JValue.jobj
           [("success", JValue.jbool false),
            ("error", JValue.jstr "Claude needs more information: hi")])] ∧
    OpenAIProvider.extract_action (some ⟨some "hi", []⟩) =
      Except.ok (AgentAction.error "No tool use found in message") :=
  ⟨text_only_policy_per_adapter.1 ⟨"assistant", [BetaBlock.text "hi"]⟩ rfl,
   text_only_policy_per_adapter.2 (some "hi")⟩

/-- C8: create_provider returns None for an unknown provider name, a
missing openai dependency, or a failed initialize; and when the
environment holds no API key for the selected provider, the store's
_create_provider returns None and stores an error message mentioning the
expected environment variable PROVIDER_API_KEY. -/
theorem create_provider_failure_modes :
    (∀ (env : PyEnv) (name : String) (key : Option String),
        name ≠ "anthropic" → name ≠ "openai" →
        AIProviderManager.create_provider env name key = none) ∧
    (∀ (env : PyEnv) (key : Option String), env.openai_installed = false →
        AIProviderManager.create_provider env "openai" key = none) ∧
    (∀ (env : PyEnv) (key : Option String),
        OpenAIProvider.initOk (OpenAIProvider.construct env key none) env = false →
        AIProviderManager.create_provider env "openai" key = none) ∧
    (∀ (env : PyEnv) (name : String),
        strTruthy (env.getenv (pyUpper name ++ "_API_KEY")) = false →
        (Store._create_provider env name).1 = none ∧
        ∃ pre post, (Store._create_provider env name).2 =
          some (pre ++ (pyUpper name ++ "_API_KEY") ++ post)) := by
  refine ⟨?_, ?_, ?_, ?_⟩
  · intro env name key h1 h2
    unfold AIProviderManager.create_provider
    simp [h1, h2]
  · intro env key h
    unfold AIProviderManager.create_provider
    simp [h]
  · intro env key h
    unfold AIProviderManager.create_provider
    simp [h]
  · intro env name h
    unfold Store._create_provider
    simp [h]
    exact ⟨"No API key found for " ++ name ++ " provider. Please set ",
           " in your .env file.", by simp⟩

/-- Witness for create_provider_failure_modes on a concrete empty
environment: unknown name, missing dependency, failed initialize, and the
missing-key message for the openai provider. -/
theorem create_provider_failure_modes_witness :
    AIProviderManager.create_provider ⟨fun _ => none, false, false⟩ "gemini" none = none ∧
    AIProviderManager.create_provider ⟨fun _ => none, false, false⟩ "openai" none = none ∧
    (Store._create_provider ⟨fun _ => none, false, false⟩ "openai").1 = none ∧
    ∃ pre post, (Store._create_provider ⟨fun _ => none, false, false⟩ "openai").2 =
      some (pre ++ "OPENAI_API_KEY" ++ post) := by
  refine ⟨?_, ?_, ?_, ?_⟩
  · exact create_provider_failure_modes.1 ⟨fun _ => none, false, false⟩ "gemini" none
      (by decide) (by decide)
  · exact create_provider_failure_modes.2.1 ⟨fun _ => none, false, false⟩ none rfl
  · exact (create_provider_failure_modes.2.2.2 ⟨fun _ => none, false, false⟩ "openai" rfl).1
  · obtain ⟨pre, post, hpp⟩ :=
      (create_provider_failure_modes.2.2.2 ⟨fun _ => none, false, false⟩ "openai" rfl).2
    refine ⟨pre, post, ?_⟩
    rw [hpp]
    simp only [show pyUpper "openai" ++ "_API_KEY" = "OPENAI_API_KEY" from by decide]

/-- C9: the anthropic branch of create_provider always returns None (the
anthropic_provider module is absent from the repository, so its import
raises ImportError); a store constructed with the provider selector unset
defaults to "anthropic" and starts with no provider; and run_agent on a
store without a provider fails fast, reporting the initialization error
and leaving the store unchanged. -/
theorem anthropic_provider_none_run_agent_fails_fast :
    (∀ (env : PyEnv) (key : Option String),
        AIProviderManager.create_provider env "anthropic" key = none) ∧
    (∀ env : PyEnv, env.getenv "DEFAULT_AI_PROVIDER" = none →
        (Store.construct env).current_provider_name = "anthropic" ∧
        (Store.construct env).ai_provider = none) ∧
    (∀ (st : Store) (evs : List Event), st.ai_provider = none →
        Store.run_agent st evs = ⟨st, ["Error: AI provider not initialized"], 0⟩) := by
  refine ⟨?_, ?_, ?_⟩
  · intro env key
    rfl
  · intro env h
    constructor
    · unfold Store.construct
      simp [h]
    · unfold Store.construct Store._create_provider
      simp [h, AIProviderManager.create_provider]
      split <;> rfl
  · intro st evs h
    unfold Store.run_agent
    rw [h]

/-- Witness for anthropic_provider_none_run_agent_fails_fast on a
concrete empty environment and a concrete provider-less store. -/
theorem anthropic_provider_none_run_agent_fails_fast_witness :
    AIProviderManager.create_provider ⟨fun _ => none, true, true⟩ "anthropic" (some "k") = none ∧
    (Store.construct ⟨fun _ => none, true, true⟩).ai_provider = none ∧
    Store.run_agent ⟨"go", false, none, [], "anthropic", none, none⟩ [] =
      ⟨⟨"go", false, none, [], "anthropic", none, none⟩, ["Error: AI provider not initialized"], 0⟩ :=
  ⟨anthropic_provider_none_run_agent_fails_fast.1 ⟨fun _ => none, true, true⟩ (some "k"),
   (anthropic_provider_none_run_agent_fails_fast.2.1 ⟨fun _ => none, true, true⟩ rfl).2,
   anthropic_provider_none_run_agent_fails_fast.2.2 ⟨"go", false, none, [], "anthropic", none, none⟩ [] rfl⟩

/-- C10: last_click_position starts as None; among the executor's actions
only left_click and double_click assign it (to the cursor position
observed after the click); every other successfully executed action leaves
it unchanged; and the focus-guard re-click of a type action moves the
cursor to the recorded last click position while leaving the field itself
unchanged. -/
theorem last_click_position_dynamics :
    (∀ (w h : ℚ) (c : ℚ × ℚ), (ComputerControl.init w h c).last_click_position = none) ∧
    (∀ (s s2 : CCState) (a : AgentAction) (r : PerformResult),
        a.setsClick = false →
        ComputerControl.perform_action s a = Except.ok (s2, r) →
        s2.last_click_position = s.last_click_position) ∧
    (∀ s : CCState,
        ComputerControl.perform_action s AgentAction.left_click =
          Except.ok ({ s with last_click_position := some s.cursor }, PerformResult.screenshot) ∧
        ComputerControl.perform_action s AgentAction.double_click =
          Except.ok ({ s with last_click_position := some s.cursor }, PerformResult.screenshot)) ∧
    (∀ (s : CCState) (p : ℚ × ℚ) (t : String),
        s.last_click_position = some p →
        ComputerControl.perform_action s (AgentAction.type_text (JValue.jstr t)) =
          Except.ok ({ s with cursor := p }, PerformResult.screenshot)) := by
  refine ⟨fun w h c => rfl, ?_, fun s => ⟨rfl, rfl⟩, ?_⟩
  · intro s s2 a r hns h
    cases a <;> try simp [AgentAction.setsClick] at hns
    all_goals simp only [ComputerControl.perform_action] at h
    all_goals repeat' split at h
    all_goals simp only [Except.ok.injEq, Prod.mk.injEq, reduceCtorEq] at h
    all_goals try obtain ⟨h1, h2⟩ := h
    all_goals try subst h1
    all_goals rfl
  · intro s p t h
    rcases s with ⟨w, hh, cur, last⟩
    simp only [ComputerControl.perform_action]
    cases h
    by_cases hc : cur = p
    · subst hc
      simp
    · simp [hc]

/-- Witness for last_click_position_dynamics: concrete init state, a
mouse_move that leaves the field unchanged, a left_click that records the
cursor, and a type action whose focus guard re-clicks at the recorded
position. -/
theorem last_click_position_dynamics_witness :
    (ComputerControl.init 1920 1080 (5, 6)).last_click_position = none ∧
    (⟨1920, 1080, (7, 8), some (5, 6)⟩ : CCState).last_click_position = some (5, 6) ∧
    ComputerControl.perform_action ⟨1920, 1080, (5, 6), none⟩ AgentAction.left_click =
      Except.ok (⟨1920, 1080, (5, 6), some (5, 6)⟩, PerformResult.screenshot) ∧
    ComputerControl.perform_action ⟨1920, 1080, (7, 8), some (5, 6)⟩
        (AgentAction.type_text (JValue.jstr "cats")) =
      Except.ok (⟨1920, 1080, (5, 6), some (5, 6)⟩, PerformResult.screenshot) := by
  refine ⟨last_click_position_dynamics.1 1920 1080 (5, 6), rfl, ?_, ?_⟩
  · exact (last_click_position_dynamics.2.2.1 ⟨1920, 1080, (5, 6), none⟩).1
  · exact last_click_position_dynamics.2.2.2 ⟨1920, 1080, (7, 8), some (5, 6)⟩ (5, 6) "cats" rfl

/-- A nonempty string prepended to anything is nonempty. -/
theorem append_ne_empty (a b : String) (ha : a ≠ "") : a ++ b ≠ "" := by
  intro he
  apply ha
  have hl := congrArg String.length he
  rw [String.length_append] at hl
  have h0 : a.length = 0 := by
    have : String.length "" = 0 := rfl
    omega
  cases a with
  | mk data =>
    cases data with
    | nil => rfl
    | cons c cs => simp [String.length] at h0

/-- C3 counterexample: a computer tool call whose arguments parse to a
JSON array (valid JSON, but not an object) makes extract_action raise
AttributeError (args.get on a list) instead of returning an action dict,
so extract_action is not total. -/
theorem extract_action_raises_on_array_args :
    OpenAIProvider.extract_action (some ⟨none, [⟨"id1", "computer", "[]", some (JValue.jarr [])⟩]⟩) =
      Except.error PyExc.attributeError := rfl

/-- C3 amended: extract_action never raises and returns an action dict
with a non-empty message on every error path, provided the examined (head)
tool call's arguments parse to a JSON object whose coordinate value, for a
mouse action, is absent or an array; under that proviso the advertised
messages hold: "Unexpected tool: <name>" for tool names other than
computer and finish_run, "Invalid coordinate for mouse action" when a
mouse_move or left_click_drag lacks a 2-element coordinate array, and
"Missing text for keyboard action" when a type or key argument lacks a
text field. On arguments parsing to a non-object JSON value,
extract_action instead raises (caught only by the orchestrator's outer
handler). -/
theorem extract_action_total_on_safe_args :
    (∀ m : ChatMessage, m.argsSafeHead = true → extractOk m = true) ∧
    (∀ (c : Option String) (id raw name : String) (aj : Option JValue) (rest : List ToolCall),
        name ≠ "finish_run" → name ≠ "computer" →
        OpenAIProvider.extract_action (some ⟨c, ⟨id, name, raw, aj⟩ :: rest⟩) =
          Except.ok (AgentAction.error ("Unexpected tool: " ++ name))) ∧
    (∀ (c : Option String) (id raw a : String) (kvs : List (String × JValue)) (rest : List ToolCall),
        (a = "mouse_move" ∨ a = "left_click_drag") →
        jlookup kvs "action" = some (JValue.jstr a) →
        (jlookup kvs "coordinate" = none ∨
          ∃ xs, jlookup kvs "coordinate" = some (JValue.jarr xs) ∧ xs.length ≠ 2) →
        OpenAIProvider.extract_action (some ⟨c, ⟨id, "computer", raw, some (JValue.jobj kvs)⟩ :: rest⟩) =
          Except.ok (AgentAction.error "Invalid coordinate for mouse action")) ∧
    (∀ (c : Option String) (id raw a : String) (kvs : List (String × JValue)) (rest : List ToolCall),
        (a = "type" ∨ a = "key") →
        jlookup kvs "action" = some (JValue.jstr a) →
        jlookup kvs "text" = none →
        OpenAIProvider.extract_action (some ⟨c, ⟨id, "computer", raw, some (JValue.jobj kvs)⟩ :: rest⟩) =
          Except.ok (AgentAction.error "Missing text for keyboard action")) := by
  refine ⟨?_, ?_, ?_, ?_⟩
  · intro m hm
    rcases m with ⟨c, tcs⟩
    cases tcs with
    | nil => rfl
    | cons tc rest =>
      rcases tc with ⟨id, name, raw, aj⟩
      simp only [ChatMessage.argsSafeHead] at hm
      by_cases h1 : (name == "finish_run") = true
      · simp [extractOk, OpenAIProvider.extract_action, h1]
      · by_cases h2 : (name != "computer") = true
        · simp [extractOk, OpenAIProvider.extract_action, h1, h2, bne_iff_ne]
          exact append_ne_empty _ _ (by decide)
        · have hnc : name = "computer" := by simpa [bne_iff_ne] using h2
          subst hnc
          simp only [show (("computer" : String) == "finish_run") = false from rfl,
            Bool.false_eq_true, if_false,
            show (("computer" : String) != "computer") = false from rfl] at hm
          cases aj with
          | none => simp [extractOk, OpenAIProvider.extract_action]
          | some v =>
            cases v with
            | jobj kvs =>
              simp only [ToolCall.argsSafe] at hm
              rcases hact : jlookup kvs "action" with _ | av
              · simp [extractOk, OpenAIProvider.extract_action, hact, pyStrOpt, bne_iff_ne]
                try decide
              · cases av with
                | jstr a =>
                  rw [hact] at hm
                  by_cases hmouse : (a == "mouse_move" || a == "left_click_drag") = true
                  · simp only [hmouse, if_true] at hm
                    rcases hco : jlookup kvs "coordinate" with _ | cv
                    · simp [extractOk, OpenAIProvider.extract_action, hact, hmouse, hco]
                    · rw [hco] at hm
                      cases cv with
                      | jarr xs =>
                        by_cases hlen : (xs.length != 2) = true
                        · simp [extractOk, OpenAIProvider.extract_action, hact, hmouse, hco,
                            pyLen, hlen]
                        · have hl2 : xs.length = 2 := by simpa [bne_iff_ne] using hlen
                          match xs, hl2 with
                          | [x0, x1], _ =>
                            by_cases ham : (a == "mouse_move") = true
                            · simp [extractOk, OpenAIProvider.extract_action, hact, hmouse, hco,
                                pyLen, pyIndex, ham]
                            · have hdrag : (a == "left_click_drag") = true := by
                                cases hq : (a == "mouse_move") <;>
                                  cases hq2 : (a == "left_click_drag") <;> simp_all
                              simp [extractOk, OpenAIProvider.extract_action, hact, hmouse, hco,
                                pyLen, pyIndex, ham, hdrag]
                      | jnull => exact Bool.noConfusion hm
                      | jbool b => exact Bool.noConfusion hm
                      | jnum n => exact Bool.noConfusion hm
                      | jstr s => exact Bool.noConfusion hm
                      | jobj o => exact Bool.noConfusion hm
                  · simp only [extractOk, OpenAIProvider.extract_action, hact, hmouse,
                      Bool.false_eq_true, if_false,
                      show (("computer" : String) == "finish_run") = false from rfl,
                      show (("computer" : String) != "computer") = false from rfl]
                    split
                    · rename_i msg heq
                      repeat' split at heq
                      all_goals simp only [Except.ok.injEq, AgentAction.error.injEq,
                        reduceCtorEq] at heq
                      all_goals subst heq
                      all_goals simp only [bne_iff_ne, ne_eq, decide_eq_true_eq]
                      all_goals try exact append_ne_empty _ _ (by decide)
                      all_goals decide
                    · rfl
                    · rename_i e heq
                      repeat' split at heq
                      all_goals simp_all
                | jnull =>
                  simp [extractOk, OpenAIProvider.extract_action, hact, bne_iff_ne]
                  exact append_ne_empty _ _ (by decide)
                | jbool b =>
                  simp [extractOk, OpenAIProvider.extract_action, hact, bne_iff_ne]
                  exact append_ne_empty _ _ (by decide)
                | jnum n =>
                  simp [extractOk, OpenAIProvider.extract_action, hact, bne_iff_ne]
                  exact append_ne_empty _ _ (by decide)
                | jarr xs =>
                  simp [extractOk, OpenAIProvider.extract_action, hact, bne_iff_ne]
                  exact append_ne_empty _ _ (by decide)
                | jobj o =>
                  simp [extractOk, OpenAIProvider.extract_action, hact, bne_iff_ne]
                  exact append_ne_empty _ _ (by decide)
            | jnull => exact Bool.noConfusion hm
            | jbool b => exact Bool.noConfusion hm
            | jnum n => exact Bool.noConfusion hm
            | jstr s => exact Bool.noConfusion hm
            | jarr xs => exact Bool.noConfusion hm
  · intro c id raw name aj rest h1 h2
    unfold OpenAIProvider.extract_action
    simp [h1, h2]
  · intro c id raw a kvs rest ha hact hco
    unfold OpenAIProvider.extract_action
    simp only [show (("computer" : String) == "finish_run") = false from rfl,
      show (("computer" : String) != "computer") = false from rfl,
      Bool.false_eq_true, if_false, hact]
    have hmouse : (a == "mouse_move" || a == "left_click_drag") = true := by
      rcases ha with h | h <;> subst h <;> rfl
    rw [hmouse]
    simp only [if_true]
    rcases hco with h | ⟨xs, hx, hlen⟩
    · rw [h]
    · rw [hx]
      simp only [pyLen]
      have : (xs.length != 2) = true := by simpa [bne_iff_ne] using hlen
      simp [this]
  · intro c id raw a kvs rest ha hact htext
    unfold OpenAIProvider.extract_action
    simp only [show (("computer" : String) == "finish_run") = false from rfl,
      show (("computer" : String) != "computer") = false from rfl,
      Bool.false_eq_true, if_false, hact]
    rcases ha with h | h <;> subst h <;> simp [htext]

/-- Witness for extract_action_total_on_safe_args: a safe screenshot call
decodes totally; an unknown tool, a 1-element coordinate and a type call
without text produce the three advertised messages. -/
theorem extract_action_total_on_safe_args_witness :
    extractOk ⟨none, [⟨"i1", "computer", "a", some (JValue.jobj [("action", JValue.jstr "screenshot")])⟩]⟩ = true ∧
    OpenAIProvider.extract_action (some ⟨none, [⟨"i2", "other_tool", "a", none⟩]⟩) =
      Except.ok (AgentAction.error "Unexpected tool: other_tool") ∧
    OpenAIProvider.extract_action (some ⟨none, [⟨"i3", "computer", "a",
        some (JValue.jobj [("action", JValue.jstr "mouse_move"), ("coordinate", JValue.jarr [JValue.jnum 3])])⟩]⟩) =
      Except.ok (AgentAction.error "Invalid coordinate for mouse action") ∧
    OpenAIProvider.extract_action (some ⟨none, [⟨"i4", "computer", "a",
        some (JValue.jobj [("action", JValue.jstr "type")])⟩]⟩) =
      Except.ok (AgentAction.error "Missing text for keyboard action") := by
  refine ⟨?_, ?_, ?_, ?_⟩
  · exact extract_action_total_on_safe_args.1
      ⟨none, [⟨"i1", "computer", "a", some (JValue.jobj [("action", JValue.jstr "screenshot")])⟩]⟩ rfl
  · exact extract_action_total_on_safe_args.2.1 none "i2" "a" "other_tool" none []
      (by decide) (by decide)
  · exact extract_action_total_on_safe_args.2.2.1 none "i3" "a" "mouse_move"
      [("action", JValue.jstr "mouse_move"), ("coordinate", JValue.jarr [JValue.jnum 3])] []
      (Or.inl rfl) rfl (Or.inr ⟨[JValue.jnum 3], rfl, by decide⟩)
  · exact extract_action_total_on_safe_args.2.2.2 none "i4" "a" "type"
      [("action", JValue.jstr "type")] [] (Or.inl rfl) rfl rfl

/-- Helper: one loop iteration only ever appends to run_history. -/
theorem runStep_history (st : Store) (inp : TurnInput) :
    st.run_history <+: (Store.runStep st inp).1.run_history := by
  unfold Store.runStep
  cases hr : inp.response with
  | error e => simp
  | ok m =>
    cases hd : (OpenAIProvider.display_assistant_message m st.last_tool_use_id).exc with
    | some e => simp [hd]
    | none =>
      cases hx : OpenAIProvider.extract_action (some m) with
      | error e2 => simp [hd, hx]
      | ok a =>
        cases a <;> try simp [hd, hx, List.append_assoc]
        all_goals rcases hq : inp.execResult with e3 | os
        all_goals try rcases os with _ | shot
        all_goals simp [hd, hx, hq, List.append_assoc]

/-- Helper: stop_run only appends to run_history. -/
theorem stop_run_history (st : Store) :
    (Store.stop_run st).run_history = st.run_history ++ [stopMarker] := rfl

/-- Helper: a whole run schedule only ever appends to run_history. -/
theorem runEvents_history (evs : List Event) (st : Store) :
    st.run_history <+: (Store.runEvents st evs).store.run_history := by
  induction evs generalizing st with
  | nil => simp [Store.runEvents]
  | cons e rest ih =>
    cases e with
    | stop =>
      have h1 : st.run_history <+: (Store.stop_run st).run_history := by
        rw [stop_run_history]
        exact List.prefix_append _ _
      exact h1.trans (ih (Store.stop_run st))
    | turn inp =>
      by_cases h : st.running
      · have h1 := runStep_history st inp
        have h2 := ih (Store.runStep st inp).1
        simpa [Store.runEvents, h] using h1.trans h2
      · simpa [Store.runEvents, h] using ih st

/-- Helper: once running is false and no new run is started, a schedule of
turn events is a no-op: the loop performs no iteration and emits nothing. -/
theorem runEvents_not_running (evs : List Event) (st : Store)
    (h : st.running = false) (ht : allTurns evs = true) :
    Store.runEvents st evs = ⟨st, [], 0⟩ := by
  induction evs generalizing st with
  | nil => rfl
  | cons e rest ih =>
    cases e with
    | stop => simp [allTurns] at ht
    | turn inp =>
      have ht' : allTurns rest = true := by
        simp [allTurns] at ht ⊢
        exact ht
      simp [Store.runEvents, h]
      exact ih st h ht'

/-- C6: a stop_run call during a running turn sets running to false at
once, appends exactly one stop marker for that call, and the loop observes
the flag at the top of the next iteration: the event after the stop is not
processed and, absent a new start, no further get_next_action call is
issued and the state stays Idle. -/
theorem stop_idle_within_one_turn_single_marker :
    ∀ st : Store, st.running = true →
      (Store.stop_run st).running = false ∧
      (Store.stop_run st).run_history = st.run_history ++ [stopMarker] ∧
      (∀ (inp : TurnInput) (rest : List Event),
        Store.runEvents (Store.stop_run st) (Event.turn inp :: rest) =
          Store.runEvents (Store.stop_run st) rest) ∧
      (∀ evs : List Event, allTurns evs = true →
        Store.runEvents (Store.stop_run st) evs = ⟨Store.stop_run st, [], 0⟩) := by
  intro st hrun
  refine ⟨rfl, rfl, ?_, ?_⟩
  · intro inp rest
    simp [Store.runEvents, Store.stop_run]
  · intro evs ht
    exact runEvents_not_running evs (Store.stop_run st) rfl ht

/-- Witness for stop_idle_within_one_turn_single_marker on a concrete
running store and a one-turn remaining schedule. -/
theorem stop_idle_within_one_turn_single_marker_witness :
    (Store.stop_run ⟨"go", true, none, [HistoryEntry.user_text "go"], "openai", none, none⟩).running = false ∧
    (Store.stop_run ⟨"go", true, none, [HistoryEntry.user_text "go"], "openai", none, none⟩).run_history =
      [HistoryEntry.user_text "go", stopMarker] ∧
    Store.runEvents (Store.stop_run ⟨"go", true, none, [HistoryEntry.user_text "go"], "openai", none, none⟩)
        [Event.turn ⟨Except.error "x", Except.ok none⟩] =
      ⟨Store.stop_run ⟨"go", true, none, [HistoryEntry.user_text "go"], "openai", none, none⟩, [], 0⟩ := by
  have h := stop_idle_within_one_turn_single_marker
    ⟨"go", true, none, [HistoryEntry.user_text "go"], "openai", none, none⟩ rfl
  exact ⟨h.1, h.2.1, h.2.2.2 [Event.turn ⟨Except.error "x", Except.ok none⟩] rfl⟩

/-- C7: the history is append-only: each loop iteration and each stop_run
call only appends entries, so over a whole schedule the prior history is a
prefix of the later one, its length never decreases, and a run seeded by
run_agent keeps the user's instructions as its first entry. -/
theorem history_append_only :
    (∀ (st : Store) (inp : TurnInput),
        st.run_history <+: (Store.runStep st inp).1.run_history) ∧
    (∀ st : Store, (Store.stop_run st).run_history = st.run_history ++ [stopMarker]) ∧
    (∀ (st : Store) (evs : List Event),
        st.run_history <+: (Store.runEvents st evs).store.run_history) ∧
    (∀ (st : Store) (evs : List Event),
        st.run_history.length ≤ (Store.runEvents st evs).store.run_history.length) ∧
    (∀ (st : Store) (evs : List Event) (p : Provider), st.ai_provider = some p →
        (Store.run_agent st evs).store.run_history.head? =
          some (HistoryEntry.user_text st.instructions)) := by
  refine ⟨runStep_history, stop_run_history, fun st evs => runEvents_history evs st, ?_, ?_⟩
  · intro st evs
    exact (runEvents_history evs st).length_le
  · intro st evs p hp
    unfold Store.run_agent
    simp only [hp]
    obtain ⟨t, ht⟩ := runEvents_history evs { st with running := true, error := none, run_history := [HistoryEntry.user_text st.instructions], ai_provider := some p }
    rw [← ht]
    rfl

/-- Witness for history_append_only on a concrete store and a schedule of
one failing turn followed by a stop. -/
theorem history_append_only_witness :
    [HistoryEntry.user_text "go"] <+:
      (Store.runEvents ⟨"go", true, none, [HistoryEntry.user_text "go"], "openai",
          some (Provider.openai ⟨some "k", "gpt-4o"⟩), none⟩
        [Event.turn ⟨Except.error "net down", Except.ok none⟩, Event.stop]).store.run_history ∧
    (Store.run_agent ⟨"go", false, none, [], "openai",
        some (Provider.openai ⟨some "k", "gpt-4o"⟩), none⟩
      [Event.turn ⟨Except.error "net down", Except.ok none⟩]).store.run_history.head? =
      some (HistoryEntry.user_text "go") :=
  ⟨history_append_only.2.2.1 ⟨"go", true, none, [HistoryEntry.user_text "go"], "openai",
      some (Provider.openai ⟨some "k", "gpt-4o"⟩), none⟩
      [Event.turn ⟨Except.error "net down", Except.ok none⟩, Event.stop],
   history_append_only.2.2.2.2 ⟨"go", false, none, [], "openai",
      some (Provider.openai ⟨some "k", "gpt-4o"⟩), none⟩
      [Event.turn ⟨Except.error "net down", Except.ok none⟩]
      (Provider.openai ⟨some "k", "gpt-4o"⟩) rfl⟩

/-- C2: in the run loop, an exception raised by the executor while
performing an action does not terminate the run — a plain text error entry
is appended, running stays true, and a following turn event triggers
another get_next_action call — whereas an extracted action of type error
terminates the run, setting running to false and recording the message,
so no further get_next_action call is issued. -/
theorem executor_failure_continues_error_action_terminates :
    (∀ (st : Store) (inp inp2 : TurnInput) (m : ChatMessage) (a : AgentAction) (e : String),
        st.running = true →
        inp.response = Except.ok m →
        (OpenAIProvider.display_assistant_message m st.last_tool_use_id).exc = none →
        OpenAIProvider.extract_action (some m) = Except.ok a →
        a.isExecutable = true →
        inp.execResult = Except.error e →
        (Store.runStep st inp).1.running = true ∧
        (Store.runStep st inp).1.run_history =
          st.run_history ++ [HistoryEntry.assistant_msg m,
            HistoryEntry.user_text_block ("Action failed: " ++ e)] ∧
        (Store.runEvents st [Event.turn inp, Event.turn inp2]).api_calls = 2) ∧
    (∀ (st : Store) (inp inp2 : TurnInput) (m : ChatMessage) (msg : String),
        st.running = true →
        inp.response = Except.ok m →
        (OpenAIProvider.display_assistant_message m st.last_tool_use_id).exc = none →
        OpenAIProvider.extract_action (some m) = Except.ok (AgentAction.error msg) →
        (Store.runStep st inp).1.running = false ∧
        (Store.runStep st inp).1.error = some msg ∧
        (Store.runEvents st [Event.turn inp, Event.turn inp2]).api_calls = 1) := by
  constructor
  · intro st inp inp2 m a e hrun hresp hexc hext hexe hexec
    have hrun2 : (Store.runStep st inp).1.running = true := by
      unfold Store.runStep
      simp only [hresp, hexc, hext]
      cases a <;> try simp [AgentAction.isExecutable] at hexe
      all_goals simp [hexec, hrun]
    refine ⟨hrun2, ?_, ?_⟩
    · unfold Store.runStep
      simp only [hresp, hexc, hext]
      cases a <;> try simp [AgentAction.isExecutable] at hexe
      all_goals simp [hexec]
    · simp [Store.runEvents, hrun, hrun2]
  · intro st inp inp2 m msg hrun hresp hexc hext
    have hrun2 : (Store.runStep st inp).1.running = false := by
      unfold Store.runStep
      simp [hresp, hexc, hext]
    refine ⟨hrun2, ?_, ?_⟩
    · unfold Store.runStep
      simp [hresp, hexc, hext]
    · simp [Store.runEvents, hrun, hrun2]

/-- Witness for executor_failure_continues_error_action_terminates: a
left_click turn whose execution raises is followed by a processed second
turn, while an unexpected-tool turn stops the loop after one call. -/
theorem executor_failure_continues_error_action_terminates_witness :
    ((Store.runStep ⟨"go", true, none, [HistoryEntry.user_text "go"], "openai",
        some (Provider.openai ⟨some "k", "gpt-4o"⟩), none⟩
        ⟨Except.ok ⟨none, [⟨"c1", "computer", "a",
          some (JValue.jobj [("action", JValue.jstr "left_click")])⟩]⟩,
         Except.error "boom-os"⟩).1.running = true) ∧
    ((Store.runEvents ⟨"go", true, none, [HistoryEntry.user_text "go"], "openai",
        some (Provider.openai ⟨some "k", "gpt-4o"⟩), none⟩
        [Event.turn ⟨Except.ok ⟨none, [⟨"c1", "computer", "a",
            some (JValue.jobj [("action", JValue.jstr "left_click")])⟩]⟩,
          Except.error "boom-os"⟩,
         Event.turn ⟨Except.error "halt", Except.ok none⟩]).api_calls = 2) ∧
    ((Store.runStep ⟨"go", true, none, [HistoryEntry.user_text "go"], "openai",
        some (Provider.openai ⟨some "k", "gpt-4o"⟩), none⟩
        ⟨Except.ok ⟨none, [⟨"c2", "weird", "a", none⟩]⟩, Except.ok none⟩).1.running = false) ∧
    ((Store.runEvents ⟨"go", true, none, [HistoryEntry.user_text "go"], "openai",
        some (Provider.openai ⟨some "k", "gpt-4o"⟩), none⟩
        [Event.turn ⟨Except.ok ⟨none, [⟨"c2", "weird", "a", none⟩]⟩, Except.ok none⟩,
         Event.turn ⟨Except.error "halt", Except.ok none⟩]).api_calls = 1) := by
  have h1 := executor_failure_continues_error_action_terminates.1
    ⟨"go", true, none, [HistoryEntry.user_text "go"], "openai",
      some (Provider.openai ⟨some "k", "gpt-4o"⟩), none⟩
    ⟨Except.ok ⟨none, [⟨"c1", "computer", "a",
        some (JValue.jobj [("action", JValue.jstr "left_click")])⟩]⟩,
      Except.error "boom-os"⟩
    ⟨Except.error "halt", Except.ok none⟩
    ⟨none, [⟨"c1", "computer", "a", some (JValue.jobj [("action", JValue.jstr "left_click")])⟩]⟩
    AgentAction.left_click "boom-os" rfl rfl rfl rfl rfl rfl
  have h2 := executor_failure_continues_error_action_terminates.2
    ⟨"go", true, none, [HistoryEntry.user_text "go"], "openai",
      some (Provider.openai ⟨some "k", "gpt-4o"⟩), none⟩
    ⟨Except.ok ⟨none, [⟨"c2", "weird", "a", none⟩]⟩, Except.ok none⟩
    ⟨Except.error "halt", Except.ok none⟩
    ⟨none, [⟨"c2", "weird", "a", none⟩]⟩
    "Unexpected tool: weird" rfl rfl rfl rfl
  exact ⟨h1.1, h1.2.2, h2.1, h2.2.2⟩

/-- C5 counterexample: a finish_run tool call carrying success=false and
error "boom" terminates the loop, but the callback channel receives only
"Assistant: Task completed! " and "Task completed successfully." — no
emitted message carries the model-supplied error payload, so the
success/failure distinction is not reported. -/
theorem finish_payload_not_carried_to_callback :
    (Store.runStep ⟨"task", true, none, [HistoryEntry.user_text "task"], "openai",
        some (Provider.openai ⟨some "k", "gpt-4o"⟩), none⟩
      ⟨Except.ok ⟨none, [⟨"call_1", "finish_run", "a",
          some (JValue.jobj [("success", JValue.jbool false), ("error", JValue.jstr "boom")])⟩]⟩,
        Except.ok none⟩).1.running = false ∧
    (Store.runStep ⟨"task", true, none, [HistoryEntry.user_text "task"], "openai",
        some (Provider.openai ⟨some "k", "gpt-4o"⟩), none⟩
      ⟨Except.ok ⟨none, [⟨"call_1", "finish_run", "a",
          some (JValue.jobj [("success", JValue.jbool false), ("error", JValue.jstr "boom")])⟩]⟩,
        Except.ok none⟩).2 = ["Assistant: Task completed! ", "Task completed successfully."] ∧
    ((Store.runStep ⟨"task", true, none, [HistoryEntry.user_text "task"], "openai",
        some (Provider.openai ⟨some "k", "gpt-4o"⟩), none⟩
      ⟨Except.ok ⟨none, [⟨"call_1", "finish_run", "a",
          some (JValue.jobj [("success", JValue.jbool false), ("error", JValue.jstr "boom")])⟩]⟩,
        Except.ok none⟩).2.all (fun s => !(strContains s "boom"))) = true := by
  refine ⟨rfl, rfl, ?_⟩
  decide

/-- C5 amended: a Finish action terminates the loop and sets the state to
Idle for both success=true and success=false, but the success/failure
distinction is not carried anywhere: extract_action discards the
success/error payload of a finish_run tool call, and the orchestrator
always reports "Task completed successfully." as the final callback
message. -/
theorem finish_terminates_payload_discarded :
    (∀ (c : Option String) (id raw : String) (args : Option JValue) (rest : List ToolCall),
        OpenAIProvider.extract_action (some ⟨c, ⟨id, "finish_run", raw, args⟩ :: rest⟩) =
          Except.ok AgentAction.finish) ∧
    (∀ (st : Store) (inp : TurnInput) (m : ChatMessage),
        st.running = true →
        st.error = none →
        inp.response = Except.ok m →
        (OpenAIProvider.display_assistant_message m st.last_tool_use_id).exc = none →
        OpenAIProvider.extract_action (some m) = Except.ok AgentAction.finish →
        (Store.runStep st inp).1.running = false ∧
        (Store.runStep st inp).1.error = none ∧
        (Store.runStep st inp).2.getLast? = some "Task completed successfully.") := by
  constructor
  · intro c id raw args rest
    rfl
  · intro st inp m hrun herr hresp hexc hext
    unfold Store.runStep
    simp [hresp, hexc, hext, herr]

/-- Witness for finish_terminates_payload_discarded on a finish_run call
with success=true and a concrete running store. -/
theorem finish_terminates_payload_discarded_witness :
    OpenAIProvider.extract_action (some ⟨none, [⟨"c9", "finish_run", "a",
        some (JValue.jobj [("success", JValue.jbool true)])⟩]⟩) =
      Except.ok AgentAction.finish ∧
    (Store.runStep ⟨"t", true, none, [HistoryEntry.user_text "t"], "openai",
        some (Provider.openai ⟨some "k", "gpt-4o"⟩), none⟩
      ⟨Except.ok ⟨none, [⟨"c9", "finish_run", "a",
          some (JValue.jobj [("success", JValue.jbool true)])⟩]⟩, Except.ok none⟩).1.running = false ∧
    (Store.runStep ⟨"t", true, none, [HistoryEntry.user_text "t"], "openai",
        some (Provider.openai ⟨some "k", "gpt-4o"⟩), none⟩
      ⟨Except.ok ⟨none, [⟨"c9", "finish_run", "a",
          some (JValue.jobj [("success", JValue.jbool true)])⟩]⟩, Except.ok none⟩).2.getLast? =
      some "Task completed successfully." := by
  have h1 := finish_terminates_payload_discarded.1 none "c9" "a"
    (some (JValue.jobj [("success", JValue.jbool true)])) []
  have h2 := finish_terminates_payload_discarded.2
    ⟨"t", true, none, [HistoryEntry.user_text "t"], "openai",
      some (Provider.openai ⟨some "k", "gpt-4o"⟩), none⟩
    ⟨Except.ok ⟨none, [⟨"c9", "finish_run", "a",
        some (JValue.jobj [("success", JValue.jbool true)])⟩]⟩, Except.ok none⟩
    ⟨none, [⟨"c9", "finish_run", "a", some (JValue.jobj [("success", JValue.jbool true)])⟩]⟩
    rfl rfl rfl rfl rfl
  exact ⟨h1, h2.1, h2.2.2⟩
